import Mathlib

/-!
# Shallow embedding of the tkeyx25519 protocol client

This file embeds the Go package `tkeyx25519` (file `tkeyx25519.go`): a
command/response protocol client that talks to the X25519 device app on a
Tillitis TKey.  Go byte slices and strings become `List Byte` with
`Byte := Nat` (every value produced here stays below 256); the external
transport collaborator (`tkeyclient`) and the hash collaborator
(`blake2s.Sum256`) are modelled as oracles: the hash as a function
parameter `h : List Byte → List Byte`, the transport as a record of call
outcomes.  Fallible Go functions return `Except AppError`; the transport
interactions a call performs are recorded as an `Event` trace so that
claims about ordering ("fails before any write", "restores the read
deadline afterwards") are statable.
-/

abbrev Byte := Nat

/-- `UserSecretSize = 32` from the source. -/
def UserSecretSize : Nat := 32

/-- `StatusOK = byte(0)` from the source. -/
def StatusOK : Byte := 0

/-- `StatusWrongCmdLen = byte(1)` from the source. -/
def StatusWrongCmdLen : Byte := 1

/-- `StatusTouchTimeout = byte(2)` from the source. -/
def StatusTouchTimeout : Byte := 2

/-- The frame length classes of the transport collaborator used by this
package (`tkeyclient.CmdLen1`, `CmdLen32`, `CmdLen128`). -/
inductive CmdLen where
  | len1
  | len32
  | len128
deriving DecidableEq, Repr

/-- Modelled from the spec: the number of command-data bytes of a length
class of the external transport collaborator (`tkeyclient`); the total
frame adds one framing-header byte in front. -/
def CmdLen.bytelen : CmdLen → Nat
  | .len1 => 1
  | .len32 => 32
  | .len128 => 128

/-- The `appCmd` descriptor from the source: one-byte opcode, diagnostic
name, frame length class.  The endpoint is always `DestApp` and is not
modelled separately. -/
structure AppCmd where
  code : Byte
  name : String
  cmdLen : CmdLen
deriving DecidableEq, Repr

def cmdGetNameVersion : AppCmd := ⟨0x01, "cmdGetNameVersion", .len1⟩
def rspGetNameVersion : AppCmd := ⟨0x02, "rspGetNameVersion", .len32⟩
def cmdGetPubKey : AppCmd := ⟨0x03, "cmdGetPubKey", .len128⟩
def rspGetPubKey : AppCmd := ⟨0x04, "rspGetPubKey", .len128⟩
def cmdDoECDH : AppCmd := ⟨0x05, "cmdDoECDH", .len128⟩
def rspDoECDH : AppCmd := ⟨0x06, "rspDoECDH", .len128⟩

/-- The command table in source order. -/
def cmdTable : List AppCmd :=
  [cmdGetNameVersion, rspGetNameVersion, cmdGetPubKey, rspGetPubKey,
   cmdDoECDH, rspDoECDH]

/-- The request/response descriptor pairs, one per public operation. -/
def cmdPairs : List (AppCmd × AppCmd) :=
  [(cmdGetNameVersion, rspGetNameVersion), (cmdGetPubKey, rspGetPubKey),
   (cmdDoECDH, rspDoECDH)]

/-- Total length of a frame built for a descriptor: one framing-header
byte plus the length class's data bytes. -/
def frameLen (cmd : AppCmd) : Nat := 1 + cmd.cmdLen.bytelen

/-- The fixed request id (`id := 2` in `sendCommand` in the source). -/
def requestId : Nat := 2

/-- Modelled from the spec: the frame-header byte stamped by the external
transport collaborator's `NewFrameBuf` encodes the length class, the
endpoint tag and the request id.  No code in this package ever inspects
it, so it is represented here by the request id alone. -/
def frameHeaderByte (_cmd : AppCmd) (id : Nat) : Byte := id

/-- Modelled from the spec: `tkeyclient.NewFrameBuf(cmd, id)` — a
zero-initialised buffer of the frame's total length with the header byte
at index 0 and the command opcode at index 1. -/
def newFrameBuf (cmd : AppCmd) (id : Nat) : List Byte :=
  frameHeaderByte cmd id :: cmd.code :: List.replicate (cmd.cmdLen.bytelen - 1) 0

/-- Go's `copy(tx[off:], data)`: overwrite `tx` starting at `off` with as
much of `data` as fits, leaving the rest of `tx` unchanged. -/
def copyInto (tx : List Byte) (off : Nat) (data : List Byte) : List Byte :=
  tx.take off ++ data.take (tx.length - off) ++ tx.drop (off + data.length)

/-- The outgoing frame `sendCommand` assembles for a command and payload:
the stamped frame buffer with the payload copied in after the two header
bytes. -/
def txFrame (cmd : AppCmd) (data : List Byte) : List Byte :=
  copyInto (newFrameBuf cmd requestId) 2 data

/-- The errors the package can return.  `responseStatusNotOK` embeds the
`ResponseStatusNotOKError` type carrying the raw status byte;
`dataTooLarge` embeds the `data too large (%d > %d-2)` error carrying the
payload length and the frame length it was compared against;
`degenerateSharedSecret` embeds the all-zero shared-secret error of
`DoECDH`; the remaining constructors wrap transport collaborator
failures. -/
inductive AppError where
  | dataTooLarge (dataLen : Nat) (txLen : Nat)
  | writeFailed (msg : String)
  | readFrameFailed (msg : String)
  | responseStatusNotOK (code : Byte)
  | setReadTimeoutFailed (msg : String)
  | degenerateSharedSecret
deriving DecidableEq, Repr

/-- One interaction with the transport collaborator, recorded in call
order. -/
inductive Event where
  | setReadTimeout (seconds : Nat)
  | write (tx : List Byte)
  | readFrame
deriving DecidableEq, Repr

/-- Oracle for the transport collaborator: the outcome each of its
operations would produce during one call.  `readResult` is the raw
response frame `ReadFrame` yields (or its failure). -/
structure Transport where
  setReadTimeoutErr : Nat → Option String
  writeErr : Option String
  readResult : Except String (List Byte)

/-- `isAllZero` from the source: OR all bytes into an accumulator and
compare with zero. -/
def isAllZero (bytes : List Byte) : Bool :=
  (bytes.foldl (fun accu b => accu ||| b) 0) == 0

/-- `sendCommand` from the source: build the frame, reject oversized
payloads before writing, write, read one response frame, then interpret
it — the identity-query response has no status byte and is returned
after the 2-byte header; every other response is checked for a non-OK
status byte at index 2 and returned after the 3rd byte.  Returns the
result together with the trace of transport interactions performed. -/
def sendCommand (x : Transport) (cmd : AppCmd) (data : List Byte) (rsp : AppCmd) :
    Except AppError (List Byte) × List Event :=
  let tx := newFrameBuf cmd requestId
  if data.length > tx.length - 2 then
    (.error (.dataTooLarge data.length tx.length), [])
  else
    let tx := copyInto tx 2 data
    match x.writeErr with
    | some e => (.error (.writeFailed e), [.write tx])
    | none =>
      match x.readResult with
      | .error e => (.error (.readFrameFailed e), [.write tx, .readFrame])
      | .ok rx =>
        if rsp.code = rspGetNameVersion.code then
          (.ok (rx.drop 2), [.write tx, .readFrame])
        else if rx.getD 2 0 ≠ StatusOK then
          (.error (.responseStatusNotOK (rx.getD 2 0)), [.write tx, .readFrame])
        else
          (.ok (rx.drop 3), [.write tx, .readFrame])

/-- Modelled from the spec: `tkeyclient.NameVersion` — two 4-byte name
fields and one 4-byte little-endian version integer. -/
structure NameVersion where
  name0 : List Byte
  name1 : List Byte
  version : Nat
deriving DecidableEq, Repr

/-- Little-endian interpretation of a byte list, for the version field. -/
def leNat : List Byte → Nat
  | [] => 0
  | b :: bs => b + 256 * leNat bs

/-- Modelled from the spec: `NameVersion.Unpack` of the transport
collaborator, parsing a 12-byte buffer as two 4-byte names and a 4-byte
version integer. -/
def unpackNameVersion (bs : List Byte) : NameVersion :=
  { name0 := bs.take 4
    name1 := (bs.drop 4).take 4
    version := leNat ((bs.drop 8).take 4) }

/-- `GetAppNameVersion` from the source: narrow the read deadline to 2,
issue the identity query with an empty payload, restore the deadline to 0
(only after a successful inner call), and unpack the first 12 returned
bytes. -/
def GetAppNameVersion (x : Transport) :
    Except AppError NameVersion × List Event :=
  match x.setReadTimeoutErr 2 with
  | some e => (.error (.setReadTimeoutFailed e), [.setReadTimeout 2])
  | none =>
    let r := sendCommand x cmdGetNameVersion [] rspGetNameVersion
    match r.1 with
    | .error e => (.error e, .setReadTimeout 2 :: r.2)
    | .ok rx =>
      match x.setReadTimeoutErr 0 with
      | some e =>
          (.error (.setReadTimeoutFailed e),
           .setReadTimeout 2 :: r.2 ++ [.setReadTimeout 0])
      | none =>
          (.ok (unpackNameVersion (rx.take 12)),
           .setReadTimeout 2 :: r.2 ++ [.setReadTimeout 0])

/-- The `domain` local of `keyParameters`: hash the domain string when it
is longer than 32 bytes, otherwise left-align it and zero-pad to 32
bytes.  `h` is the external hash collaborator (`blake2s.Sum256`). -/
def foldedDomain (h : List Byte → List Byte) (domainString : List Byte) : List Byte :=
  if domainString.length > 32 then h domainString
  else domainString ++ List.replicate (32 - domainString.length) 0

/-- `keyParameters` from the source: folded domain field, then the user
secret, then one touch byte (1 when touch is required, else 0). -/
def keyParameters (h : List Byte → List Byte) (domainString : List Byte)
    (userSecret : List Byte) (requireTouch : Bool) : List Byte :=
  foldedDomain h domainString ++ userSecret ++ [if requireTouch then 1 else 0]

/-- The payload `DoECDH` sends: `keyParameters` followed by
`theirPubKey` (`data.Write(theirPubKey[:])` in the source). -/
def doECDHPayload (h : List Byte → List Byte) (domainString : List Byte)
    (userSecret : List Byte) (requireTouch : Bool) (theirPubKey : List Byte) :
    List Byte :=
  keyParameters h domainString userSecret requireTouch ++ theirPubKey

/-- `GetPubKey` from the source: send the key-parameters payload and
return the first 32 bytes of the response payload. -/
def GetPubKey (h : List Byte → List Byte) (x : Transport)
    (domainString : List Byte) (userSecret : List Byte) (requireTouch : Bool) :
    Except AppError (List Byte) × List Event :=
  let data := keyParameters h domainString userSecret requireTouch
  let r := sendCommand x cmdGetPubKey data rspGetPubKey
  match r.1 with
  | .error e => (.error e, r.2)
  | .ok rx => (.ok (rx.take 32), r.2)

/-- `DoECDH` from the source: send the key-parameters payload extended
with the peer public key, take the first 32 bytes of the response
payload as the shared secret, and reject it when all its bytes are
zero. -/
def DoECDH (h : List Byte → List Byte) (x : Transport)
    (domainString : List Byte) (userSecret : List Byte) (requireTouch : Bool)
    (theirPubKey : List Byte) :
    Except AppError (List Byte) × List Event :=
  let data := doECDHPayload h domainString userSecret requireTouch theirPubKey
  let r := sendCommand x cmdDoECDH data rspDoECDH
  match r.1 with
  | .error e => (.error e, r.2)
  | .ok rx =>
    let sharedSecret := rx.take 32
    if isAllZero sharedSecret then (.error .degenerateSharedSecret, r.2)
    else (.ok sharedSecret, r.2)

/-! ## Concrete instances used by witnesses -/

/-- A concrete stand-in for the hash collaborator: a fixed 32-byte
digest, used only to evaluate witnesses on concrete inputs. -/
def hashConst : List Byte → List Byte := fun _ => List.replicate 32 7

/-- A transport whose operations all succeed and whose read yields `rx`. -/
def trOK (rx : List Byte) : Transport :=
  { setReadTimeoutErr := fun _ => none, writeErr := none, readResult := .ok rx }

/-- A transport whose read fails (for instance by deadline expiry). -/
def trReadFail : Transport :=
  { setReadTimeoutErr := fun _ => none, writeErr := none,
    readResult := .error "read timeout" }

/-! ## Helper lemmas -/

theorem lor_eq_zero_iff (a b : Nat) : a ||| b = 0 ↔ a = 0 ∧ b = 0 := by
  constructor
  · intro h
    constructor
    · exact Nat.zero_of_testBit_eq_false fun i => by
        have hb := congrArg (fun x => Nat.testBit x i) h
        simp [Nat.testBit_lor] at hb
        simp [hb.1]
    · exact Nat.zero_of_testBit_eq_false fun i => by
        have hb := congrArg (fun x => Nat.testBit x i) h
        simp [Nat.testBit_lor] at hb
        simp [hb.2]
  · rintro ⟨rfl, rfl⟩; rfl

theorem foldl_lor_eq_zero_iff (bs : List Byte) (a : Byte) :
    bs.foldl (fun accu b => accu ||| b) a = 0 ↔ a = 0 ∧ ∀ b ∈ bs, b = 0 := by
  induction bs generalizing a with
  | nil => simp
  | cons b bs ih =>
    simp only [List.foldl_cons, ih, lor_eq_zero_iff, List.mem_cons]
    constructor
    · rintro ⟨⟨ha, hb⟩, hall⟩
      exact ⟨ha, fun c hc => hc.elim (fun hcb => hcb ▸ hb) (hall c)⟩
    · rintro ⟨ha, hall⟩
      exact ⟨⟨ha, hall b (Or.inl rfl)⟩, fun c hc => hall c (Or.inr hc)⟩

/-- `isAllZero` agrees with "every byte is zero". -/
theorem isAllZero_iff (bs : List Byte) :
    isAllZero bs = true ↔ ∀ b ∈ bs, b = 0 := by
  simp [isAllZero, foldl_lor_eq_zero_iff]

theorem length_newFrameBuf (cmd : AppCmd) (id : Nat) :
    (newFrameBuf cmd id).length = frameLen cmd := by
  cases cmd with
  | mk code name cmdLen =>
    cases cmdLen <;> simp [newFrameBuf, frameLen, CmdLen.bytelen]

theorem foldedDomain_length (h : List Byte → List Byte) (dom : List Byte)
    (hh : ∀ bs, (h bs).length = 32) : (foldedDomain h dom).length = 32 := by
  unfold foldedDomain
  split
  · exact hh dom
  · simp only [List.length_append, List.length_replicate]
    omega

theorem keyParameters_length (h : List Byte → List Byte) (dom sec : List Byte)
    (touch : Bool) (hh : ∀ bs, (h bs).length = 32) (hsec : sec.length = 32) :
    (keyParameters h dom sec touch).length = 65 := by
  simp [keyParameters, foldedDomain_length h dom hh, hsec]

theorem doECDHPayload_length (h : List Byte → List Byte) (dom sec pk : List Byte)
    (touch : Bool) (hh : ∀ bs, (h bs).length = 32) (hsec : sec.length = 32)
    (hpk : pk.length = 32) :
    (doECDHPayload h dom sec touch pk).length = 97 := by
  simp [doECDHPayload, keyParameters_length h dom sec touch hh hsec, hpk]

theorem sendCommand_statusOK (x : Transport) (cmd : AppCmd) (data : List Byte)
    (rsp : AppCmd) (rx : List Byte)
    (hfit : data.length ≤ frameLen cmd - 2) (hw : x.writeErr = none)
    (hr : x.readResult = .ok rx) (hrsp : rsp.code ≠ rspGetNameVersion.code)
    (hst : rx.getD 2 0 = StatusOK) :
    sendCommand x cmd data rsp
      = (.ok (rx.drop 3), [.write (txFrame cmd data), .readFrame]) := by
  simp only [sendCommand]
  rw [length_newFrameBuf, if_neg (by omega), hw, hr]
  have hst2 : rx[2]?.getD 0 = StatusOK := by simpa [List.getD] using hst
  simp [txFrame, hrsp, hst2]

theorem sendCommand_statusBad (x : Transport) (cmd : AppCmd) (data : List Byte)
    (rsp : AppCmd) (rx : List Byte)
    (hfit : data.length ≤ frameLen cmd - 2) (hw : x.writeErr = none)
    (hr : x.readResult = .ok rx) (hrsp : rsp.code ≠ rspGetNameVersion.code)
    (hst : rx.getD 2 0 ≠ StatusOK) :
    sendCommand x cmd data rsp
      = (.error (.responseStatusNotOK (rx.getD 2 0)),
         [.write (txFrame cmd data), .readFrame]) := by
  simp only [sendCommand]
  rw [length_newFrameBuf, if_neg (by omega), hw, hr]
  have hst2 : ¬ rx[2]?.getD 0 = StatusOK := by simpa [List.getD] using hst
  simp [txFrame, hrsp, hst2, List.getD]

theorem sendCommand_skipStatus (x : Transport) (cmd : AppCmd) (data : List Byte)
    (rx : List Byte)
    (hfit : data.length ≤ frameLen cmd - 2) (hw : x.writeErr = none)
    (hr : x.readResult = .ok rx) :
    sendCommand x cmd data rspGetNameVersion
      = (.ok (rx.drop 2), [.write (txFrame cmd data), .readFrame]) := by
  simp only [sendCommand]
  rw [length_newFrameBuf, if_neg (by omega), hw, hr]
  simp [txFrame]

theorem sendCommand_readFail (x : Transport) (cmd : AppCmd) (data : List Byte)
    (rsp : AppCmd) (e : String)
    (hfit : data.length ≤ frameLen cmd - 2) (hw : x.writeErr = none)
    (hr : x.readResult = .error e) :
    sendCommand x cmd data rsp
      = (.error (.readFrameFailed e), [.write (txFrame cmd data), .readFrame]) := by
  simp only [sendCommand]
  rw [length_newFrameBuf, if_neg (by omega), hw, hr]
  simp [txFrame]

theorem sendCommand_writeFail (x : Transport) (cmd : AppCmd) (data : List Byte)
    (rsp : AppCmd) (e : String)
    (hfit : data.length ≤ frameLen cmd - 2) (hw : x.writeErr = some e) :
    sendCommand x cmd data rsp
      = (.error (.writeFailed e), [.write (txFrame cmd data)]) := by
  simp only [sendCommand]
  rw [length_newFrameBuf, if_neg (by omega), hw]
  simp [txFrame]

theorem sendCommand_not_dataTooLarge (x : Transport) (cmd : AppCmd)
    (data : List Byte) (rsp : AppCmd)
    (hfit : data.length ≤ frameLen cmd - 2) :
    ∀ n m, (sendCommand x cmd data rsp).1 ≠ .error (.dataTooLarge n m) := by
  intro n m
  match hw : x.writeErr with
  | some e => rw [sendCommand_writeFail x cmd data rsp e hfit hw]; simp
  | none =>
    match hr : x.readResult with
    | .error e => rw [sendCommand_readFail x cmd data rsp e hfit hw hr]; simp
    | .ok rx =>
      by_cases hrsp : rsp.code = rspGetNameVersion.code
      · simp only [sendCommand]
        rw [length_newFrameBuf, if_neg (by omega), hw, hr]
        simp [hrsp]
      · by_cases hst : rx.getD 2 0 = StatusOK
        · rw [sendCommand_statusOK x cmd data rsp rx hfit hw hr hrsp hst]; simp
        · rw [sendCommand_statusBad x cmd data rsp rx hfit hw hr hrsp hst]; simp

/-! ## Claim theorems -/

/-- C2: Domain folding is deterministic: for every domain string of byte
length at most 32, the folded domain field equals the raw bytes
left-aligned and zero-padded to 32 bytes; for every domain string longer
than 32 bytes, the folded field equals exactly the 32-byte hash digest of
the string's bytes. -/
theorem foldedDomain_cases (h : List Byte → List Byte) (dom : List Byte) :
    (dom.length ≤ 32 →
      foldedDomain h dom = dom ++ List.replicate (32 - dom.length) 0) ∧
    (32 < dom.length → foldedDomain h dom = h dom) := by
  constructor <;> intro hl <;> unfold foldedDomain
  · rw [if_neg (by omega)]
  · rw [if_pos (by omega)]

/-- Witness for C2 at the concrete domains "x" (1 byte) and 33 × 'a'. -/
theorem foldedDomain_cases_witness :
    foldedDomain hashConst [120] = [120] ++ List.replicate 31 0 ∧
    foldedDomain hashConst (List.replicate 33 97)
      = hashConst (List.replicate 33 97) :=
  ⟨(foldedDomain_cases hashConst [120]).1 (by decide),
   (foldedDomain_cases hashConst (List.replicate 33 97)).2 (by decide)⟩

/-- C3: the assembled key-derivation payload is exactly the folded domain
field, then the user secret, then one touch byte (1 when touch is
required, 0 otherwise), then — for key agreement only — the peer public
key; the key-agreement payload sent by `DoECDH` carries the peer key last
and `GetPubKey`'s payload stops after the touch byte. -/
theorem payload_assembly (h : List Byte → List Byte)
    (dom sec pk : List Byte) (touch : Bool) :
    keyParameters h dom sec touch
      = foldedDomain h dom ++ sec ++ [if touch then 1 else 0] ∧
    doECDHPayload h dom sec touch pk
      = foldedDomain h dom ++ sec ++ (if touch then 1 else 0) :: pk := by
  constructor
  · rfl
  · simp [doECDHPayload, keyParameters]

/-- C9: the command table has exactly one request/response descriptor
pair per operation, every opcode in the table is unique, opcodes are
sequential (1..6), and in every pair the request opcode differs from the
response opcode. -/
theorem cmdTable_wellformed :
    cmdPairs.flatMap (fun p => [p.1, p.2]) = cmdTable ∧
    cmdTable.map AppCmd.code = [1, 2, 3, 4, 5, 6] ∧
    (cmdTable.map AppCmd.code).Nodup ∧
    List.Chain' (fun a b => b = a + 1) (cmdTable.map AppCmd.code) ∧
    cmdPairs.all (fun p => p.1.code != p.2.code) = true := by
  refine ⟨by decide, by decide, by decide, ?_, by decide⟩
  simp [cmdTable, cmdGetNameVersion, rspGetNameVersion, cmdGetPubKey,
    rspGetPubKey, cmdDoECDH, rspDoECDH, List.chain'_cons]

/-- C4: for every response to a non-identity-query command, a non-OK
status byte (payload byte at index 2 of the raw frame) fails the call
with `responseStatusNotOK` carrying that raw code and no payload bytes,
while an OK status byte returns exactly the bytes after the 2-byte header
and the status byte. -/
theorem sendCommand_status_handling (x : Transport) (cmd : AppCmd)
    (data : List Byte) (rsp : AppCmd) (rx : List Byte)
    (hfit : data.length ≤ frameLen cmd - 2)
    (hrsp : rsp.code ≠ rspGetNameVersion.code)
    (hw : x.writeErr = none) (hr : x.readResult = .ok rx) :
    (rx.getD 2 0 ≠ StatusOK →
      (sendCommand x cmd data rsp).1
        = .error (.responseStatusNotOK (rx.getD 2 0))) ∧
    (rx.getD 2 0 = StatusOK →
      (sendCommand x cmd data rsp).1 = .ok (rx.drop 3)) := by
  constructor <;> intro hst
  · rw [sendCommand_statusBad x cmd data rsp rx hfit hw hr hrsp hst]
  · rw [sendCommand_statusOK x cmd data rsp rx hfit hw hr hrsp hst]

/-- Witness for C4: a response frame with status byte 1 makes the call
fail with that code. -/
theorem sendCommand_status_handling_witness :
    (sendCommand (trOK (0 :: 4 :: 1 :: List.replicate 126 0)) cmdGetPubKey []
      rspGetPubKey).1 = .error (.responseStatusNotOK 1) := by
  have := (sendCommand_status_handling
    (trOK (0 :: 4 :: 1 :: List.replicate 126 0)) cmdGetPubKey [] rspGetPubKey
    (0 :: 4 :: 1 :: List.replicate 126 0)
    (by decide) (by decide) rfl rfl).1 (by decide)
  simpa using this

/-- C6: a payload longer than the request frame's length minus the two
header bytes fails with the oversized-payload error carrying the payload
length and the frame length, and no write event is ever issued on the
transport. -/
theorem sendCommand_oversized (x : Transport) (cmd : AppCmd)
    (data : List Byte) (rsp : AppCmd)
    (hover : frameLen cmd - 2 < data.length) :
    (sendCommand x cmd data rsp).1
      = .error (.dataTooLarge data.length (frameLen cmd)) ∧
    ∀ tx, Event.write tx ∉ (sendCommand x cmd data rsp).2 := by
  have hgoal : sendCommand x cmd data rsp
      = (.error (.dataTooLarge data.length (frameLen cmd)), []) := by
    simp only [sendCommand]
    rw [length_newFrameBuf, if_pos (by omega)]
  rw [hgoal]
  simp

/-- Witness for C6: one payload byte against the 2-byte identity-query
frame overflows and produces the oversized-payload error with an empty
transport trace. -/
theorem sendCommand_oversized_witness :
    (sendCommand trReadFail cmdGetNameVersion [9] rspGetNameVersion).1
      = .error (.dataTooLarge 1 2) ∧
    Event.write (txFrame cmdGetNameVersion [9])
      ∉ (sendCommand trReadFail cmdGetNameVersion [9] rspGetNameVersion).2 := by
  have := sendCommand_oversized trReadFail cmdGetNameVersion [9]
    rspGetNameVersion (by decide)
  exact ⟨by simpa using this.1, this.2 _⟩

/-- C7: the identity-query response carries no status byte — the
primitive returns the bytes immediately after the 2-byte header for any
response frame whatsoever (no status interpretation) — and
`GetAppNameVersion` parses exactly the first 12 of those bytes into the
name/version record. -/
theorem getAppNameVersion_skip_status (x : Transport) (rx : List Byte)
    (hset2 : x.setReadTimeoutErr 2 = none) (hset0 : x.setReadTimeoutErr 0 = none)
    (hw : x.writeErr = none) (hr : x.readResult = .ok rx) :
    (sendCommand x cmdGetNameVersion [] rspGetNameVersion).1 = .ok (rx.drop 2) ∧
    (GetAppNameVersion x).1 = .ok (unpackNameVersion ((rx.drop 2).take 12)) := by
  have hsc := sendCommand_skipStatus x cmdGetNameVersion [] rx (by decide) hw hr
  constructor
  · rw [hsc]
  · simp [GetAppNameVersion, hset2, hset0, hsc]

/-- Witness for C7: a response frame whose status-byte position holds the
non-OK value 7 is still returned and parsed — no status check happens. -/
theorem getAppNameVersion_skip_status_witness :
    (GetAppNameVersion (trOK (0 :: 2 :: List.replicate 31 7))).1
      = .ok ⟨List.replicate 4 7, List.replicate 4 7, 117901063⟩ := by
  have := (getAppNameVersion_skip_status (trOK (0 :: 2 :: List.replicate 31 7))
    (0 :: 2 :: List.replicate 31 7) rfl rfl rfl rfl).2
  rw [this]
  simp only [Except.ok.injEq]
  decide

/-- C1: on a successful key-agreement exchange, `DoECDH` inspects the 32
bytes of shared secret in the device response (the bytes after header and
status byte): when every one of them is zero it fails with the
degenerate-shared-secret error and returns no secret, otherwise it
returns exactly those 32 bytes unmodified. -/
theorem doECDH_degenerate_check (h : List Byte → List Byte) (x : Transport)
    (dom sec pk rx : List Byte) (touch : Bool)
    (hh : ∀ bs, (h bs).length = 32) (hsec : sec.length = 32)
    (hpk : pk.length = 32)
    (hw : x.writeErr = none) (hr : x.readResult = .ok rx)
    (hst : rx.getD 2 0 = StatusOK) (hlen : rx.length = frameLen rspDoECDH) :
    ((rx.drop 3).take 32).length = 32 ∧
    ((∀ b ∈ (rx.drop 3).take 32, b = 0) →
      (DoECDH h x dom sec touch pk).1 = .error .degenerateSharedSecret) ∧
    ((¬ ∀ b ∈ (rx.drop 3).take 32, b = 0) →
      (DoECDH h x dom sec touch pk).1 = .ok ((rx.drop 3).take 32)) := by
  have hfit : (doECDHPayload h dom sec touch pk).length ≤ frameLen cmdDoECDH - 2 := by
    rw [doECDHPayload_length h dom sec pk touch hh hsec hpk]; decide
  have hsc := sendCommand_statusOK x cmdDoECDH (doECDHPayload h dom sec touch pk)
    rspDoECDH rx hfit hw hr (by decide) hst
  have hrl : rx.length = 129 := hlen
  refine ⟨?_, ?_, ?_⟩
  · simp only [List.length_take, List.length_drop, hrl]
    decide
  · intro hz
    have hz2 : isAllZero ((rx.drop 3).take 32) = true := (isAllZero_iff _).mpr hz
    simp [DoECDH, hsc, hz2]
  · intro hz
    have hz2 : isAllZero ((rx.drop 3).take 32) = false :=
      Bool.eq_false_iff.mpr fun hx => hz ((isAllZero_iff _).mp hx)
    simp [DoECDH, hsc, hz2]

set_option maxRecDepth 4000 in
/-- Witness for C1: a successful exchange whose secret bytes are
9,0,…,0 is returned unmodified. -/
theorem doECDH_degenerate_check_witness :
    (DoECDH hashConst (trOK (0 :: 6 :: 0 :: 9 :: List.replicate 125 0))
      [120] (List.replicate 32 1) true (List.replicate 32 2)).1
      = .ok (9 :: List.replicate 31 0) := by
  have := (doECDH_degenerate_check hashConst
    (trOK (0 :: 6 :: 0 :: 9 :: List.replicate 125 0)) [120]
    (List.replicate 32 1) (List.replicate 32 2)
    (0 :: 6 :: 0 :: 9 :: List.replicate 125 0) true
    (fun bs => by simp [hashConst]) (by decide) (by decide) rfl rfl
    (by decide) (by decide)).2.2 (by decide)
  rw [this]
  simp only [Except.ok.injEq]
  decide

/-- Counterexample for C5: when the inner request/response fails (here
the read fails, e.g. by deadline expiry — precisely the situation the
narrowed deadline exists for), `GetAppNameVersion` returns the error
without ever issuing `SetReadTimeout 0`: the bounded deadline is not
restored on that failure path. -/
theorem getAppNameVersion_no_restore_on_failure :
    (GetAppNameVersion trReadFail).1 = .error (.readFrameFailed "read timeout") ∧
    Event.setReadTimeout 2 ∈ (GetAppNameVersion trReadFail).2 ∧
    Event.setReadTimeout 0 ∉ (GetAppNameVersion trReadFail).2 := by
  refine ⟨rfl, by decide, by decide⟩

/-- C5 amended: the identity query narrows the transport read deadline
to 2 time units before issuing the call, and restores the unbounded
deadline (0) only on the success path; when the inner request/response
fails, the narrowed deadline is left in place and never restored. -/
theorem getAppNameVersion_timeout_discipline (x : Transport)
    (hset : ∀ n, x.setReadTimeoutErr n = none) (hw : x.writeErr = none) :
    (∀ rx, x.readResult = .ok rx →
      (GetAppNameVersion x).2
        = [.setReadTimeout 2, .write (txFrame cmdGetNameVersion []), .readFrame,
           .setReadTimeout 0]) ∧
    (∀ e, x.readResult = .error e →
      (GetAppNameVersion x).2
        = [.setReadTimeout 2, .write (txFrame cmdGetNameVersion []), .readFrame] ∧
      Event.setReadTimeout 0 ∉ (GetAppNameVersion x).2) := by
  constructor
  · intro rx hr
    have hsc := sendCommand_skipStatus x cmdGetNameVersion [] rx (by decide) hw hr
    simp [GetAppNameVersion, hset 2, hset 0, hsc]
  · intro e hr
    have hsc := sendCommand_readFail x cmdGetNameVersion [] rspGetNameVersion e
      (by decide) hw hr
    constructor
    · simp [GetAppNameVersion, hset 2, hsc]
    · simp [GetAppNameVersion, hset 2, hsc]

/-- Witness for the amended C5: a fully successful identity query issues
exactly narrow, write, read, restore — in that order. -/
theorem getAppNameVersion_timeout_discipline_witness :
    (GetAppNameVersion (trOK (List.replicate 33 0))).2
      = [.setReadTimeout 2, .write (txFrame cmdGetNameVersion []), .readFrame,
         .setReadTimeout 0] :=
  (getAppNameVersion_timeout_discipline (trOK (List.replicate 33 0))
    (fun _ => rfl) rfl).1 (List.replicate 33 0) rfl

/-- Counterexample for C8: the single byte 0xFF is not well-formed
UTF-8, yet `keyParameters` performs no validation and maps it to the
ordinary assembled payload instead of failing — in the source the helper
returns a plain `bytes.Buffer` and has no error channel at all. -/
theorem keyParameters_no_utf8_failure :
    keyParameters hashConst [255] (List.replicate 32 0) false
      = (255 :: List.replicate 31 0) ++ List.replicate 32 0 ++ [0] := by
  decide

/-- C8 amended: the key-derivation helper is pure and total: it has no
failure modes at all; every domain byte string — well-formed UTF-8 or
not — yields the assembled 65-byte payload. -/
theorem keyParameters_total (h : List Byte → List Byte) (dom sec : List Byte)
    (touch : Bool) (hh : ∀ bs, (h bs).length = 32) (hsec : sec.length = 32) :
    (keyParameters h dom sec touch).length = 65 :=
  keyParameters_length h dom sec touch hh hsec

/-- Witness for the amended C8 on a 41-byte domain that is not
well-formed UTF-8. -/
theorem keyParameters_total_witness :
    (keyParameters hashConst (255 :: List.replicate 40 255)
      (List.replicate 32 3) true).length = 65 :=
  keyParameters_total hashConst (255 :: List.replicate 40 255)
    (List.replicate 32 3) true (fun bs => by simp [hashConst]) (by decide)

/-- C10: the oversized-payload branch of the request/response primitive
is unreachable from `GetPubKey` and `DoECDH`: their assembled payloads
are always exactly 65 and 97 bytes, both fit the 128-byte length class,
and neither operation can ever return the `dataTooLarge` error. -/
theorem payload_fits_frame (h : List Byte → List Byte) (x : Transport)
    (dom sec pk : List Byte) (touch : Bool)
    (hh : ∀ bs, (h bs).length = 32) (hsec : sec.length = 32)
    (hpk : pk.length = 32) :
    (keyParameters h dom sec touch).length = 65 ∧
    (doECDHPayload h dom sec touch pk).length = 97 ∧
    (∀ n m, (GetPubKey h x dom sec touch).1 ≠ .error (.dataTooLarge n m)) ∧
    (∀ n m, (DoECDH h x dom sec touch pk).1 ≠ .error (.dataTooLarge n m)) := by
  have hk := keyParameters_length h dom sec touch hh hsec
  have hd := doECDHPayload_length h dom sec pk touch hh hsec hpk
  have hfitP : (keyParameters h dom sec touch).length ≤ frameLen cmdGetPubKey - 2 := by
    rw [hk]; decide
  have hfitE : (doECDHPayload h dom sec touch pk).length ≤ frameLen cmdDoECDH - 2 := by
    rw [hd]; decide
  refine ⟨hk, hd, ?_, ?_⟩
  · intro n m
    have hnot := sendCommand_not_dataTooLarge x cmdGetPubKey
      (keyParameters h dom sec touch) rspGetPubKey hfitP n m
    simp only [GetPubKey]
    cases hr1 : (sendCommand x cmdGetPubKey (keyParameters h dom sec touch)
        rspGetPubKey).1 with
    | error e =>
      rw [hr1] at hnot
      simp [hr1]
      intro he
      exact hnot (by rw [he])
    | ok rx => simp [hr1]
  · intro n m
    have hnot := sendCommand_not_dataTooLarge x cmdDoECDH
      (doECDHPayload h dom sec touch pk) rspDoECDH hfitE n m
    simp only [DoECDH]
    cases hr1 : (sendCommand x cmdDoECDH (doECDHPayload h dom sec touch pk)
        rspDoECDH).1 with
    | error e =>
      rw [hr1] at hnot
      simp [hr1]
      intro he
      exact hnot (by rw [he])
    | ok rx =>
      simp only [hr1]
      split <;> simp

/-- Witness for C10 on concrete inputs: the key-agreement payload is 97
bytes and the operation does not report it oversized. -/
theorem payload_fits_frame_witness :
    (keyParameters hashConst [120] (List.replicate 32 0) false).length = 65 ∧
    (DoECDH hashConst trReadFail [120] (List.replicate 32 0) false
      (List.replicate 32 2)).1 ≠ .error (.dataTooLarge 97 129) := by
  have := payload_fits_frame hashConst trReadFail [120] (List.replicate 32 0)
    (List.replicate 32 2) false (fun bs => by simp [hashConst]) (by decide)
    (by decide)
  exact ⟨this.1, this.2.2.2 97 129⟩
